import Mathlib

/-!
Verification of the LÖVE mesh binary exporter (src/addon.py).

The development shallowly embeds the format-relevant logic of the Blender
add-on: the signed-axis remapping matrix, the fixed attribute table and its
layout, the header and attribute-record packing, the per-corner vertex
record construction (position remap, UV/color fallback and UV flips), and
the assembly of the output buffer by the export operator.

Modelling conventions:
- Scalars (vertex coordinates, UVs, colors) are exact rationals; the
  source computes with Python floats and packs them as IEEE-754 singles.
  The bit-level float encoding performed by struct.pack is modelled as a
  parameter (one function per byte order) that maps a scalar to its four
  bytes; theorems that need it only assume each encoded float is 4 bytes
  long, which struct.pack guarantees.
- Bytes are natural numbers; little-endian uint32 packing is explicit.
- List indexing uses getD with a default where Python would raise on an
  out-of-range index; all claims are settled at in-range indices.
-/

namespace LoveMesh

/-- Unsigned coordinate axes, used to decide whether two signed axis
selectors are parallel. -/
inductive Axis3 where
  | AX
  | AY
  | AZ
deriving DecidableEq, Repr

/-- The six signed axis selectors offered by the operator UI
(AXIS_DATA = ("X", "Y", "Z", "-X", "-Y", "-Z")). -/
inductive Axis where
  | X
  | Y
  | Z
  | negX
  | negY
  | negZ
deriving DecidableEq, Repr

/-- The unsigned axis letter of a selector. -/
def axisOf : Axis → Axis3
  | .X => .AX
  | .negX => .AX
  | .Y => .AY
  | .negY => .AY
  | .Z => .AZ
  | .negZ => .AZ

/-- A 3-vector with exact rational components (mathutils.Vector). -/
structure Vec3 where
  x : ℚ
  y : ℚ
  z : ℚ
deriving DecidableEq, Repr

/-- Cross product, as mathutils Vector.cross. -/
def cross (a b : Vec3) : Vec3 :=
  ⟨a.y * b.z - a.z * b.y, a.z * b.x - a.x * b.z, a.x * b.y - a.y * b.x⟩

/-- axis_vector from the source: sign from a leading minus, then a unit
vector along the named axis. -/
def axis_vector : Axis → Vec3
  | .X => ⟨1, 0, 0⟩
  | .Y => ⟨0, 1, 0⟩
  | .Z => ⟨0, 0, 1⟩
  | .negX => ⟨-1, 0, 0⟩
  | .negY => ⟨0, -1, 0⟩
  | .negZ => ⟨0, 0, -1⟩

/-- A 3x3 matrix as three rows (mathutils.Matrix built from row tuples). -/
structure Mat3 where
  r0 : Vec3
  r1 : Vec3
  r2 : Vec3
deriving DecidableEq, Repr

/-- Matrix transpose. -/
def transposed (m : Mat3) : Mat3 :=
  ⟨⟨m.r0.x, m.r1.x, m.r2.x⟩, ⟨m.r0.y, m.r1.y, m.r2.y⟩, ⟨m.r0.z, m.r1.z, m.r2.z⟩⟩

/-- build_axis_matrix from the source: rows (right, up, forward) where
right = forward x up, then transposed. -/
def build_axis_matrix (forward up : Axis) : Mat3 :=
  let fwd := axis_vector forward
  let upv := axis_vector up
  let right := cross fwd upv
  transposed ⟨right, upv, fwd⟩

/-- Dot product of two vectors. -/
def dot (a b : Vec3) : ℚ := a.x * b.x + a.y * b.y + a.z * b.z

/-- Matrix-vector product (mathutils Matrix @ Vector: each result
component is the dot product of a row with the vector). -/
def matVec (m : Mat3) (v : Vec3) : Vec3 := ⟨dot m.r0 v, dot m.r1 v, dot m.r2 v⟩

/-- Squared Euclidean norm of a vector. -/
def normSq (v : Vec3) : ℚ := dot v v

/-- One entry of ATTRIBUTE_TABLE: name -> (semantic, DataFormat,
struct format string, loc). The source calls the last field location. -/
structure AttrEntry where
  name : String
  semantic : Nat
  dataformat : Nat
  fmt : String
  loc : Nat
deriving DecidableEq, Repr

/-- ATTRIBUTE_TABLE from the source, in its (insertion) iteration order:
VertexPosition (0, FLOAT_VEC3 = 2, fff), VertexTexCoord (1, FLOAT_VEC2 = 1,
ff), VertexColor (2, FLOAT_VEC4 = 3, ffff). -/
def ATTRIBUTE_TABLE : List AttrEntry :=
  [ ⟨"VertexPosition", 0, 2, "fff", 0⟩,
    ⟨"VertexTexCoord", 1, 1, "ff", 1⟩,
    ⟨"VertexColor", 2, 3, "ffff", 2⟩ ]

/-- struct.calcsize for a format string consisting only of f codes:
4 bytes per float, no padding under the explicit byte-order prefix. -/
def calcsize_floats (fmt : String) : Nat := 4 * fmt.length

/-- build_attribute_layout from the source: the layout entries in table
order plus the accumulated total stride (sum of the per-entry sizes). -/
def build_attribute_layout : List AttrEntry × Nat :=
  (ATTRIBUTE_TABLE, (ATTRIBUTE_TABLE.map (fun e => calcsize_floats e.fmt)).sum)

/-- HEADER_MAGIC = b"MSH0" as bytes. -/
def HEADER_MAGIC : List Nat := [77, 83, 72, 48]

/-- Little-endian packing of a uint32 into four bytes. -/
def le32 (n : Nat) : List Nat :=
  [n % 256, n / 256 % 256, n / 65536 % 256, n / 16777216 % 256]

/-- HEADER_STRUCT.pack: the 4-byte magic followed by six little-endian
uint32 fields (vertex_count, stride, attribute_count, attr_struct_size,
texture_name_len, size), per the format string <4sIIIIII. -/
def header_pack (vc stride attribute_count attr_struct_size texture_name_len size : Nat) :
    List Nat :=
  HEADER_MAGIC ++ le32 vc ++ le32 stride ++ le32 attribute_count ++
    le32 attr_struct_size ++ le32 texture_name_len ++ le32 size

/-- struct.calcsize(HEADER_STRUCT.format) for <4sIIIIII: 4 + 6 * 4. -/
def HEADER_SIZE : Nat := 4 + 6 * 4

/-- ATTRIBUTE_STRUCT.pack for <BBB: three single bytes
(semantic, dataformat, loc); all packed values here are below 256. -/
def attribute_pack (semantic dataformat loc : Nat) : List Nat :=
  [semantic % 256, dataformat % 256, loc % 256]

/-- struct.calcsize(ATTRIBUTE_STRUCT.format) for <BBB. -/
def ATTRIBUTE_STRUCT_SIZE : Nat := 3

/-- The vertex byte-order selector (ENDIANS: Little "<", Big ">"). -/
inductive Endian where
  | little
  | big
deriving DecidableEq, Repr

/-- The operator properties that influence the produced bytes: the UV flip
flags, the forward/up axis selectors, the selected texture name (already
encoded to its UTF-8 bytes), and the vertex byte-order selector. -/
structure ExportProps where
  flip_uv_u : Bool
  flip_uv_v : Bool
  forward_axis : Axis
  up_axis : Axis
  texture_name : List Nat
  endian : Endian
deriving DecidableEq, Repr

/-- The mesh data the operator reads: vertex coordinates, the loop to
vertex-index map, the loop triangles (each a list of loop indices), and
the optional active UV and vertex-color layers, indexed by loop index. -/
structure Mesh where
  vertices : List Vec3
  loops : List Nat
  loop_triangles : List (List Nat)
  uv_layers_active : Option (List (ℚ × ℚ))
  vertex_colors_active : Option (List (ℚ × ℚ × ℚ × ℚ))
deriving DecidableEq, Repr

/-- get_uv from the source: with no layer return (0.0, 0.0) immediately;
otherwise read the loop's UV and apply the enabled flips (1 - u, 1 - v). -/
def get_uv (self : ExportProps) (layer : Option (List (ℚ × ℚ))) (index : Nat) :
    ℚ × ℚ :=
  match layer with
  | none => (0, 0)
  | some data =>
    let uv := data.getD index (0, 0)
    let u := if self.flip_uv_u then 1 - uv.1 else uv.1
    let v := if self.flip_uv_v then 1 - uv.2 else uv.2
    (u, v)

/-- get_color from the source: with no layer return opaque white
(1.0, 1.0, 1.0, 1.0); otherwise read the loop's color. -/
def get_color (layer : Option (List (ℚ × ℚ × ℚ × ℚ))) (index : Nat) :
    ℚ × ℚ × ℚ × ℚ :=
  match layer with
  | none => (1, 1, 1, 1)
  | some data => data.getD index (0, 0, 0, 0)

/-- The logical values encoded for one triangle corner. -/
structure VertexRecord where
  pos : Vec3
  uv : ℚ × ℚ
  color : ℚ × ℚ × ℚ × ℚ
deriving DecidableEq, Repr

/-- The authoring-space coordinate of the vertex referenced by a loop:
mesh.vertices[mesh.loops[loop_index].vertex_index].co. -/
def corner_co (mesh : Mesh) (loop_index : Nat) : Vec3 :=
  mesh.vertices.getD (mesh.loops.getD loop_index 0) ⟨0, 0, 0⟩

/-- The per-corner loop body of execute, at the level of values: for each
triangle, for each of its loops, remap the position with the axis matrix
and resolve UV and color through get_uv / get_color. -/
def vertex_records (self : ExportProps) (mesh : Mesh) : List VertexRecord :=
  let axis_matrix := build_axis_matrix self.forward_axis self.up_axis
  mesh.loop_triangles.flatMap fun tri =>
    tri.map fun loop_index =>
      { pos := matVec axis_matrix (corner_co mesh loop_index),
        uv := get_uv self mesh.uv_layers_active loop_index,
        color := get_color mesh.vertex_colors_active loop_index }

/-- vertex_count from the source: sum(len(tri.loops) for tri in
mesh.loop_triangles). -/
def vertex_count (mesh : Mesh) : Nat :=
  (mesh.loop_triangles.map List.length).sum

/-- struct.pack of consecutive floats: each float's four bytes in turn,
with enc the per-float byte encoding of the chosen byte order. -/
def pack_floats (enc : ℚ → List Nat) (vals : List ℚ) : List Nat :=
  vals.flatMap enc

/-- One iteration of the per-attribute elif chain in execute: position,
texcoord or color floats for a recognised semantic, nothing otherwise. -/
def encode_attr (enc : ℚ → List Nat) (r : VertexRecord) (e : AttrEntry) : List Nat :=
  if e.semantic = 0 then pack_floats enc [r.pos.x, r.pos.y, r.pos.z]
  else if e.semantic = 1 then pack_floats enc [r.uv.1, r.uv.2]
  else if e.semantic = 2 then
    pack_floats enc [r.color.1, r.color.2.1, r.color.2.2.1, r.color.2.2.2]
  else []

/-- The bytes one vertex contributes: the layout entries in table order,
each encoded by the elif chain. -/
def encode_vertex (enc : ℚ → List Nat) (r : VertexRecord) : List Nat :=
  build_attribute_layout.1.flatMap (encode_attr enc r)

/-- The attribute table section: ATTRIBUTE_STRUCT.pack(semantic,
dataformat, location) for each layout entry in order. -/
def attribute_table_bytes : List Nat :=
  build_attribute_layout.1.flatMap fun e => attribute_pack e.semantic e.dataformat e.loc

/-- The trailing texture-name section: the raw UTF-8 bytes, appended only
when the name is non-empty (struct.pack "<ns" of the n name bytes). -/
def texture_tail (texture_name : List Nat) : List Nat :=
  if texture_name.length = 0 then [] else texture_name

/-- The per-float byte encoding selected by the endian property. -/
def select_endian (encLE encBE : ℚ → List Nat) : Endian → (ℚ → List Nat)
  | .little => encLE
  | .big => encBE

/-- The complete output buffer assembled by execute: header, attribute
table, vertex stream (one encode_vertex per corner, in the selected byte
order), then the texture-name tail. -/
def export_bytes (encLE encBE : ℚ → List Nat) (self : ExportProps) (mesh : Mesh) :
    List Nat :=
  let enc := select_endian encLE encBE self.endian
  header_pack (vertex_count mesh) build_attribute_layout.2
      build_attribute_layout.1.length ATTRIBUTE_STRUCT_SIZE
      self.texture_name.length HEADER_SIZE
    ++ attribute_table_bytes
    ++ (vertex_records self mesh).flatMap (encode_vertex enc)
    ++ texture_tail self.texture_name

/-- The outcome of the execute operator: CANCELLED with an error report,
or FINISHED with the bytes written to the destination file. -/
inductive ExecResult where
  | cancelled (msg : String)
  | finished (out : List Nat)
deriving DecidableEq, Repr

/-- execute from the source: the only guarded failure is the absence of an
active mesh object (reported as an ERROR and CANCELLED before any bytes
exist); with a mesh it always assembles and writes the full buffer and
returns FINISHED. -/
def execute (encLE encBE : ℚ → List Nat) (self : ExportProps)
    (active_object : Option Mesh) : ExecResult :=
  match active_object with
  | none => .cancelled "Select a mesh object"
  | some mesh => .finished (export_bytes encLE encBE self mesh)

/-- Reading one byte of the buffer. -/
def read_byte (out : List Nat) (i : Nat) : Nat := out.getD i 0

/-- Decoding a little-endian uint32 at a byte offset of the buffer. -/
def read_u32 (out : List Nat) (i : Nat) : Nat :=
  read_byte out i + 256 * read_byte out (i + 1) + 65536 * read_byte out (i + 2) +
    16777216 * read_byte out (i + 3)

/-- The byte size a DataFormat code in the attribute table implies for one
vertex field: FLOAT_VEC2 = 1 is 8 bytes, FLOAT_VEC3 = 2 is 12 bytes,
FLOAT_VEC4 = 3 is 16 bytes. -/
def format_byte_size : Nat → Nat
  | 1 => 8
  | 2 => 12
  | 3 => 16
  | _ => 0

end LoveMesh

namespace LoveMesh

/-- A trivial 4-byte-per-float encoding used to instantiate theorems at
concrete inputs; the real encoders only ever enter proofs through the
assumption that each float packs to four bytes. -/
def enc0 : ℚ → List Nat := fun _ => [0, 0, 0, 0]

/-- A single triangle with three corners, no UV layer and no color
layer. -/
def mesh1 : Mesh :=
  { vertices := [⟨0, 1, 2⟩, ⟨3, 4, 5⟩, ⟨6, 7, 8⟩],
    loops := [0, 1, 2],
    loop_triangles := [[0, 1, 2]],
    uv_layers_active := none,
    vertex_colors_active := none }

/-- A mesh with no triangles at all: an empty vertex stream. -/
def mesh_empty : Mesh :=
  { vertices := [], loops := [], loop_triangles := [],
    uv_layers_active := none, vertex_colors_active := none }

/-- The operator defaults: forward Y, up Z, no flips, little-endian, empty
texture name. -/
def propsYZ : ExportProps :=
  { flip_uv_u := false, flip_uv_v := false, forward_axis := .Y, up_axis := .Z,
    texture_name := [], endian := .little }

/-- Properties with parallel (equal) forward and up axes. -/
def props_parallel : ExportProps :=
  { flip_uv_u := false, flip_uv_v := false, forward_axis := .X, up_axis := .X,
    texture_name := [], endian := .little }

/-- Properties with both UV flips enabled. -/
def props_flips : ExportProps :=
  { flip_uv_u := true, flip_uv_v := true, forward_axis := .Y, up_axis := .Z,
    texture_name := [], endian := .little }

/-- Whether an execute outcome is an explicit failure report (CANCELLED)
rather than a completed export. -/
def reports_failure : ExecResult → Bool
  | .cancelled _ => true
  | .finished _ => false

theorem pack_floats_length (enc : ℚ → List Nat) (h4 : ∀ q, (enc q).length = 4)
    (vals : List ℚ) : (pack_floats enc vals).length = 4 * vals.length := by
  induction vals with
  | nil => rfl
  | cons a l ih =>
    simp only [pack_floats, List.flatMap_cons, List.length_append, List.length_cons] at *
    rw [h4 a, ih]
    ring

theorem encode_vertex_length (enc : ℚ → List Nat) (h4 : ∀ q, (enc q).length = 4)
    (r : VertexRecord) : (encode_vertex enc r).length = 36 := by
  simp [encode_vertex, build_attribute_layout, ATTRIBUTE_TABLE, encode_attr,
    pack_floats_length enc h4]

theorem stream_length (enc : ℚ → List Nat) (h4 : ∀ q, (enc q).length = 4)
    (rs : List VertexRecord) :
    (rs.flatMap (encode_vertex enc)).length = 36 * rs.length := by
  induction rs with
  | nil => rfl
  | cons r l ih =>
    simp only [List.flatMap_cons, List.length_append, List.length_cons, ih,
      encode_vertex_length enc h4]
    ring

theorem vertex_records_length (self : ExportProps) (mesh : Mesh) :
    (vertex_records self mesh).length = vertex_count mesh := by
  simp only [vertex_records, vertex_count]
  induction mesh.loop_triangles with
  | nil => rfl
  | cons t l ih =>
    simp only [List.flatMap_cons, List.length_append, List.map_cons, List.sum_cons,
      List.length_map, ih]

theorem texture_tail_length (texture_name : List Nat) :
    (texture_tail texture_name).length = texture_name.length := by
  unfold texture_tail
  split
  · simp only [List.length_nil]
    omega
  · rfl

theorem select_endian_length (encLE encBE : ℚ → List Nat)
    (h4L : ∀ q, (encLE q).length = 4) (h4B : ∀ q, (encBE q).length = 4)
    (e : Endian) : ∀ q, ((select_endian encLE encBE e) q).length = 4 := by
  cases e
  · exact h4L
  · exact h4B

theorem header_pack_length (a b c d e f : Nat) :
    (header_pack a b c d e f).length = 28 := rfl

theorem attribute_table_bytes_length : attribute_table_bytes.length = 9 := rfl

theorem export_bytes_split (encLE encBE : ℚ → List Nat) (self : ExportProps) (mesh : Mesh) :
    export_bytes encLE encBE self mesh =
      header_pack (vertex_count mesh) 36 3 3 self.texture_name.length 28
        ++ attribute_table_bytes
        ++ (vertex_records self mesh).flatMap
            (encode_vertex (select_endian encLE encBE self.endian))
        ++ texture_tail self.texture_name := rfl

theorem export_bytes_length (encLE encBE : ℚ → List Nat) (self : ExportProps) (mesh : Mesh)
    (h4L : ∀ q, (encLE q).length = 4) (h4B : ∀ q, (encBE q).length = 4) :
    (export_bytes encLE encBE self mesh).length =
      28 + 9 + 36 * vertex_count mesh + self.texture_name.length := by
  rw [export_bytes_split, List.length_append, List.length_append, List.length_append,
    header_pack_length, attribute_table_bytes_length,
    stream_length _ (select_endian_length _ _ h4L h4B _), vertex_records_length,
    texture_tail_length]

theorem read_vc (encLE encBE : ℚ → List Nat) (self : ExportProps) (mesh : Mesh)
    (h : vertex_count mesh < 4294967296) :
    read_u32 (export_bytes encLE encBE self mesh) 4 = vertex_count mesh := by
  show vertex_count mesh % 256 + 256 * (vertex_count mesh / 256 % 256) +
    65536 * (vertex_count mesh / 65536 % 256) +
    16777216 * (vertex_count mesh / 16777216 % 256) = vertex_count mesh
  omega

theorem read_tnl (encLE encBE : ℚ → List Nat) (self : ExportProps) (mesh : Mesh)
    (h : self.texture_name.length < 4294967296) :
    read_u32 (export_bytes encLE encBE self mesh) 20 = self.texture_name.length := by
  show self.texture_name.length % 256 + 256 * (self.texture_name.length / 256 % 256) +
    65536 * (self.texture_name.length / 65536 % 256) +
    16777216 * (self.texture_name.length / 16777216 % 256) = self.texture_name.length
  omega

theorem read_stride (encLE encBE : ℚ → List Nat) (self : ExportProps) (mesh : Mesh) :
    read_u32 (export_bytes encLE encBE self mesh) 8 = 36 := rfl

theorem read_ac (encLE encBE : ℚ → List Nat) (self : ExportProps) (mesh : Mesh) :
    read_u32 (export_bytes encLE encBE self mesh) 12 = 3 := rfl

theorem read_ars (encLE encBE : ℚ → List Nat) (self : ExportProps) (mesh : Mesh) :
    read_u32 (export_bytes encLE encBE self mesh) 16 = 3 := rfl

theorem read_hs (encLE encBE : ℚ → List Nat) (self : ExportProps) (mesh : Mesh) :
    read_u32 (export_bytes encLE encBE self mesh) 24 = 28 := rfl

theorem drop37 (encLE encBE : ℚ → List Nat) (self : ExportProps) (mesh : Mesh) :
    (export_bytes encLE encBE self mesh).drop 37 =
      (vertex_records self mesh).flatMap
          (encode_vertex (select_endian encLE encBE self.endian))
        ++ texture_tail self.texture_name := rfl

theorem matVec_YZ (v : Vec3) :
    matVec (build_axis_matrix .Y .Z) v = ⟨v.x, v.z, v.y⟩ := by
  simp [matVec, build_axis_matrix, axis_vector, cross, transposed, dot, Vec3.mk.injEq]

/-- C1: for every export the buffer's total length equals headerSize +
attributeCount * attributeRecordSize + vertexCount * stride +
textureNameLength, with every one of those values decoded from the header
the buffer itself carries, and the vertex-stream section (the bytes
between the attribute table and the texture name) is exactly
vertexCount * stride bytes long. -/
theorem c1_total_length_invariant (encLE encBE : ℚ → List Nat) (self : ExportProps)
    (mesh : Mesh)
    (h4L : ∀ q, (encLE q).length = 4) (h4B : ∀ q, (encBE q).length = 4)
    (hvc : vertex_count mesh < 4294967296)
    (htn : self.texture_name.length < 4294967296) :
    (export_bytes encLE encBE self mesh).length =
        read_u32 (export_bytes encLE encBE self mesh) 24
        + read_u32 (export_bytes encLE encBE self mesh) 12
          * read_u32 (export_bytes encLE encBE self mesh) 16
        + read_u32 (export_bytes encLE encBE self mesh) 4
          * read_u32 (export_bytes encLE encBE self mesh) 8
        + read_u32 (export_bytes encLE encBE self mesh) 20
      ∧ ((export_bytes encLE encBE self mesh).drop
            (read_u32 (export_bytes encLE encBE self mesh) 24
              + read_u32 (export_bytes encLE encBE self mesh) 12
                * read_u32 (export_bytes encLE encBE self mesh) 16)).take
          (read_u32 (export_bytes encLE encBE self mesh) 4
            * read_u32 (export_bytes encLE encBE self mesh) 8) =
        (vertex_records self mesh).flatMap
          (encode_vertex (select_endian encLE encBE self.endian))
      ∧ ((vertex_records self mesh).flatMap
            (encode_vertex (select_endian encLE encBE self.endian))).length =
          read_u32 (export_bytes encLE encBE self mesh) 4
            * read_u32 (export_bytes encLE encBE self mesh) 8 := by
  have h24 := read_hs encLE encBE self mesh
  have h12 := read_ac encLE encBE self mesh
  have h16 := read_ars encLE encBE self mesh
  have h8 := read_stride encLE encBE self mesh
  have h4 := read_vc encLE encBE self mesh hvc
  have h20 := read_tnl encLE encBE self mesh htn
  have hs := stream_length _ (select_endian_length _ _ h4L h4B self.endian)
      (vertex_records self mesh)
  rw [h24, h12, h16, h8, h4, h20]
  refine ⟨?_, ?_, ?_⟩
  · rw [export_bytes_length _ _ _ _ h4L h4B]
    ring
  · show ((export_bytes encLE encBE self mesh).drop 37).take (vertex_count mesh * 36) = _
    rw [drop37]
    exact List.take_left' (by rw [hs, vertex_records_length]; ring)
  · rw [hs, vertex_records_length]
    ring

/-- C1 witness: the invariant instantiated at the single-triangle mesh
with the default properties. -/
theorem c1_total_length_invariant_witness :
    (export_bytes enc0 enc0 propsYZ mesh1).length =
        read_u32 (export_bytes enc0 enc0 propsYZ mesh1) 24
        + read_u32 (export_bytes enc0 enc0 propsYZ mesh1) 12
          * read_u32 (export_bytes enc0 enc0 propsYZ mesh1) 16
        + read_u32 (export_bytes enc0 enc0 propsYZ mesh1) 4
          * read_u32 (export_bytes enc0 enc0 propsYZ mesh1) 8
        + read_u32 (export_bytes enc0 enc0 propsYZ mesh1) 20
      ∧ ((export_bytes enc0 enc0 propsYZ mesh1).drop
            (read_u32 (export_bytes enc0 enc0 propsYZ mesh1) 24
              + read_u32 (export_bytes enc0 enc0 propsYZ mesh1) 12
                * read_u32 (export_bytes enc0 enc0 propsYZ mesh1) 16)).take
          (read_u32 (export_bytes enc0 enc0 propsYZ mesh1) 4
            * read_u32 (export_bytes enc0 enc0 propsYZ mesh1) 8) =
        (vertex_records propsYZ mesh1).flatMap
          (encode_vertex (select_endian enc0 enc0 propsYZ.endian))
      ∧ ((vertex_records propsYZ mesh1).flatMap
            (encode_vertex (select_endian enc0 enc0 propsYZ.endian))).length =
          read_u32 (export_bytes enc0 enc0 propsYZ mesh1) 4
            * read_u32 (export_bytes enc0 enc0 propsYZ mesh1) 8 :=
  c1_total_length_invariant enc0 enc0 propsYZ mesh1 (fun _ => rfl) (fun _ => rfl)
    (by norm_num [vertex_count, mesh1]) (by norm_num [propsYZ])

/-- C2 counterexample: with parallel forward/up axes (X and X) the export
does not report a failure; it returns FINISHED and produces the full
145-byte buffer, and with an empty vertex stream it likewise returns
FINISHED with a 37-byte file, so the claimed explicit failure before any
output is produced does not happen. -/
theorem c2_precondition_counterexample :
    props_parallel.forward_axis = Axis.X ∧ props_parallel.up_axis = Axis.X
      ∧ reports_failure (execute enc0 enc0 props_parallel (some mesh1)) = false
      ∧ (export_bytes enc0 enc0 props_parallel mesh1).length = 145
      ∧ mesh_empty.loop_triangles = []
      ∧ reports_failure (execute enc0 enc0 propsYZ (some mesh_empty)) = false
      ∧ (export_bytes enc0 enc0 propsYZ mesh_empty).length = 37 :=
  ⟨rfl, rfl, rfl, rfl, rfl, rfl, rfl⟩

/-- C2 amended: the only input condition execute reports as an explicit
failure is the absence of an active mesh object; parallel forward/up axes
and an empty vertex stream are not checked, and on such inputs the export
still completes with FINISHED and writes the fully assembled buffer
(header, attribute table, vertex stream, texture name). -/
theorem c2_amended_no_precondition_check (encLE encBE : ℚ → List Nat)
    (self : ExportProps) (mesh : Mesh)
    (h4L : ∀ q, (encLE q).length = 4) (h4B : ∀ q, (encBE q).length = 4)
    (hviolation : axisOf self.forward_axis = axisOf self.up_axis
      ∨ mesh.loop_triangles = []) :
    execute encLE encBE self (some mesh) =
        .finished (export_bytes encLE encBE self mesh)
      ∧ reports_failure (execute encLE encBE self (some mesh)) = false
      ∧ (export_bytes encLE encBE self mesh).length =
          28 + 9 + 36 * vertex_count mesh + self.texture_name.length
      ∧ reports_failure (execute encLE encBE self none) = true :=
  ⟨rfl, rfl, export_bytes_length _ _ _ _ h4L h4B, rfl⟩

/-- C2 amended witness: the amended statement at the parallel-axes
properties and the single-triangle mesh. -/
theorem c2_amended_no_precondition_check_witness :
    execute enc0 enc0 props_parallel (some mesh1) =
        .finished (export_bytes enc0 enc0 props_parallel mesh1)
      ∧ reports_failure (execute enc0 enc0 props_parallel (some mesh1)) = false
      ∧ (export_bytes enc0 enc0 props_parallel mesh1).length =
          28 + 9 + 36 * vertex_count mesh1 + props_parallel.texture_name.length
      ∧ reports_failure (execute enc0 enc0 props_parallel none) = true :=
  c2_amended_no_precondition_check enc0 enc0 props_parallel mesh1
    (fun _ => rfl) (fun _ => rfl) (Or.inl rfl)

/-- C3 counterexample: with forward Y and up Z the transform is not the
identity: the authoring-space position (0, 1, 2) of the first corner of
the single-triangle mesh is encoded as (0, 2, 1). -/
theorem c3_identity_counterexample :
    propsYZ.forward_axis = Axis.Y ∧ propsYZ.up_axis = Axis.Z
      ∧ corner_co mesh1 0 = ⟨0, 1, 2⟩
      ∧ (vertex_records propsYZ mesh1).head? =
          some ⟨⟨0, 2, 1⟩, (0, 0), (1, 1, 1, 1)⟩
      ∧ (⟨0, 2, 1⟩ : Vec3) ≠ ⟨0, 1, 2⟩ := by
  refine ⟨rfl, rfl, ?_, ?_, ?_⟩
  · norm_num [corner_co, mesh1, Vec3.mk.injEq]
  · norm_num [vertex_records, mesh1, propsYZ, matVec_YZ, corner_co, get_uv, get_color,
      Vec3.mk.injEq, VertexRecord.mk.injEq]
  · norm_num [Vec3.mk.injEq]

/-- C3 amended: exporting with forward Y and up Z swaps each position's
y and z components (it maps (x, y, z) to (x, z, y), not the identity),
and for a single triangle with 3 corners, no UV/color layers and an empty
texture name the header decodes to vertexCount 3, stride 36,
attributeCount 3 and textureNameLength 0, with every vertex's uv (0, 0)
and color (1, 1, 1, 1). -/
theorem c3_amended_default_scenario (encLE encBE : ℚ → List Nat) (self : ExportProps)
    (mesh : Mesh) (t : List Nat)
    (hf : self.forward_axis = .Y) (hu : self.up_axis = .Z)
    (hfu : self.flip_uv_u = false) (hfv : self.flip_uv_v = false)
    (hend : self.endian = .little)
    (hn : self.texture_name = [])
    (huv : mesh.uv_layers_active = none) (hcol : mesh.vertex_colors_active = none)
    (htri : mesh.loop_triangles = [t]) (ht3 : t.length = 3) :
    read_u32 (export_bytes encLE encBE self mesh) 4 = 3
      ∧ read_u32 (export_bytes encLE encBE self mesh) 8 = 36
      ∧ read_u32 (export_bytes encLE encBE self mesh) 12 = 3
      ∧ read_u32 (export_bytes encLE encBE self mesh) 20 = 0
      ∧ vertex_records self mesh =
          t.map fun loop_index =>
            { pos := ⟨(corner_co mesh loop_index).x, (corner_co mesh loop_index).z,
                      (corner_co mesh loop_index).y⟩,
              uv := (0, 0), color := (1, 1, 1, 1) } := by
  have hvc : vertex_count mesh = 3 := by
    simp [vertex_count, htri, ht3]
  refine ⟨?_, read_stride _ _ _ _, read_ac _ _ _ _, ?_, ?_⟩
  · rw [read_vc encLE encBE self mesh (by omega), hvc]
  · rw [read_tnl encLE encBE self mesh (by simp [hn])]
    simp [hn]
  · simp only [vertex_records, htri, hf, hu, huv, hcol, List.flatMap_cons,
      List.flatMap_nil, List.append_nil, matVec_YZ, get_uv, get_color]

/-- C3 amended witness: the amended scenario at the concrete
single-triangle mesh with the default properties. -/
theorem c3_amended_default_scenario_witness :
    read_u32 (export_bytes enc0 enc0 propsYZ mesh1) 4 = 3
      ∧ read_u32 (export_bytes enc0 enc0 propsYZ mesh1) 8 = 36
      ∧ read_u32 (export_bytes enc0 enc0 propsYZ mesh1) 12 = 3
      ∧ read_u32 (export_bytes enc0 enc0 propsYZ mesh1) 20 = 0
      ∧ vertex_records propsYZ mesh1 =
          [0, 1, 2].map fun loop_index =>
            { pos := ⟨(corner_co mesh1 loop_index).x, (corner_co mesh1 loop_index).z,
                      (corner_co mesh1 loop_index).y⟩,
              uv := (0, 0), color := (1, 1, 1, 1) } :=
  c3_amended_default_scenario enc0 enc0 propsYZ mesh1 [0, 1, 2]
    rfl rfl rfl rfl rfl rfl rfl rfl rfl rfl

/-- C4 counterexample: with both flips enabled and no UV layer, get_uv
returns the raw fallback (0, 0) and not the flipped (1, 1) the claim
requires, because the fallback return bypasses the flip policy. -/
theorem c4_fallback_flip_counterexample :
    props_flips.flip_uv_u = true ∧ props_flips.flip_uv_v = true
      ∧ get_uv props_flips none 0 = (0, 0)
      ∧ get_uv props_flips none 0 ≠ ((1 : ℚ), (1 : ℚ)) := by
  refine ⟨rfl, rfl, rfl, ?_⟩
  norm_num [get_uv, Prod.ext_iff]

/-- C4 amended: a vertex with no texture-coordinate source gets the
values (0.0, 0.0) and one with no color source gets (1.0, 1.0, 1.0, 1.0),
but the UV fallback is returned before the flip policy runs, so the
encoded UV of a fallback vertex is (0, 0) regardless of the flip flags. -/
theorem c4_amended_fallback_values (self : ExportProps) (index : Nat) :
    get_uv self none index = (0, 0)
      ∧ get_color none index = (1, 1, 1, 1) :=
  ⟨rfl, rfl⟩

set_option maxHeartbeats 1000000 in
/-- C5: for every pair of signed axis selectors whose underlying axes
differ (the non-parallel pairs), the axis matrix preserves the squared
Euclidean norm of every vector, i.e. it is orthonormal and preserves
vector length. -/
theorem c5_axis_matrix_orthonormal (f u : Axis) (h : axisOf f ≠ axisOf u) (v : Vec3) :
    normSq (matVec (build_axis_matrix f u) v) = normSq v := by
  cases f <;> cases u <;>
    simp only [axisOf, ne_eq, reduceCtorEq, not_true_eq_false, not_false_eq_true] at h ⊢ <;>
    · simp only [build_axis_matrix, axis_vector, cross, transposed, matVec, dot, normSq]
      ring

/-- C5 witness: length preservation at forward X, up Y on the vector
(1, 2, 3). -/
theorem c5_axis_matrix_orthonormal_witness :
    normSq (matVec (build_axis_matrix .X .Y) ⟨1, 2, 3⟩) = normSq ⟨1, 2, 3⟩ :=
  c5_axis_matrix_orthonormal .X .Y (by decide) ⟨1, 2, 3⟩

set_option maxHeartbeats 1600000 in
/-- C6: the stride value written in the header equals the sum of the
per-attribute byte sizes implied by the dataFormat codes of the three
attribute records written in the same file (12 + 8 + 16 = 36), and every
vertex of the file is encoded with that same byte length. -/
theorem c6_stride_matches_table (encLE encBE : ℚ → List Nat) (self : ExportProps)
    (mesh : Mesh)
    (h4L : ∀ q, (encLE q).length = 4) (h4B : ∀ q, (encBE q).length = 4) :
    read_u32 (export_bytes encLE encBE self mesh) 8 =
        format_byte_size (read_byte (export_bytes encLE encBE self mesh) 29)
        + format_byte_size (read_byte (export_bytes encLE encBE self mesh) 32)
        + format_byte_size (read_byte (export_bytes encLE encBE self mesh) 35)
      ∧ ∀ r ∈ vertex_records self mesh,
          (encode_vertex (select_endian encLE encBE self.endian) r).length =
            read_u32 (export_bytes encLE encBE self mesh) 8 := by
  constructor
  · rfl
  · intro r _
    rw [encode_vertex_length _ (select_endian_length _ _ h4L h4B _),
      read_stride encLE encBE self mesh]

/-- C6 witness: the stride invariant at the single-triangle mesh with the
default properties. -/
theorem c6_stride_matches_table_witness :
    read_u32 (export_bytes enc0 enc0 propsYZ mesh1) 8 =
        format_byte_size (read_byte (export_bytes enc0 enc0 propsYZ mesh1) 29)
        + format_byte_size (read_byte (export_bytes enc0 enc0 propsYZ mesh1) 32)
        + format_byte_size (read_byte (export_bytes enc0 enc0 propsYZ mesh1) 35)
      ∧ ∀ r ∈ vertex_records propsYZ mesh1,
          (encode_vertex (select_endian enc0 enc0 propsYZ.endian) r).length =
            read_u32 (export_bytes enc0 enc0 propsYZ mesh1) 8 :=
  c6_stride_matches_table enc0 enc0 propsYZ mesh1 (fun _ => rfl) (fun _ => rfl)

/-- C7: with forward -X and up Y the constructed matrix maps the position
(1, 0, 0) to (0, 0, -1). -/
theorem c7_negX_up_Y_maps :
    matVec (build_axis_matrix .negX .Y) ⟨1, 0, 0⟩ = ⟨0, 0, -1⟩ := by
  norm_num [matVec, build_axis_matrix, axis_vector, cross, transposed, dot, Vec3.mk.injEq]

/-- C8: the first 37 bytes of the output (the 28-byte header and the
9-byte attribute table) are identical whichever vertex byte-order the
caller selects, as is the trailing texture-name section; only the
vertex-stream bytes are produced by the encoder the selector picks. -/
theorem c8_header_endian_independent (encLE encBE : ℚ → List Nat) (self : ExportProps)
    (mesh : Mesh)
    (h4L : ∀ q, (encLE q).length = 4) (h4B : ∀ q, (encBE q).length = 4) :
    (export_bytes encLE encBE { self with endian := .little } mesh).take 37 =
        (export_bytes encLE encBE { self with endian := .big } mesh).take 37
      ∧ (export_bytes encLE encBE { self with endian := .little } mesh).drop
            (37 + 36 * vertex_count mesh) =
          (export_bytes encLE encBE { self with endian := .big } mesh).drop
            (37 + 36 * vertex_count mesh)
      ∧ ((export_bytes encLE encBE { self with endian := .little } mesh).drop 37).take
            (36 * vertex_count mesh) =
          (vertex_records { self with endian := .little } mesh).flatMap
            (encode_vertex encLE)
      ∧ ((export_bytes encLE encBE { self with endian := .big } mesh).drop 37).take
            (36 * vertex_count mesh) =
          (vertex_records { self with endian := .big } mesh).flatMap
            (encode_vertex encBE) := by
  have hsL : ((vertex_records { self with endian := Endian.little } mesh).flatMap
      (encode_vertex encLE)).length = 36 * vertex_count mesh := by
    rw [stream_length _ h4L, vertex_records_length]
  have hsB : ((vertex_records { self with endian := Endian.big } mesh).flatMap
      (encode_vertex encBE)).length = 36 * vertex_count mesh := by
    rw [stream_length _ h4B, vertex_records_length]
  refine ⟨rfl, ?_, ?_, ?_⟩
  · rw [← List.drop_drop, ← List.drop_drop, drop37, drop37]
    dsimp only [select_endian]
    rw [List.drop_left' hsL, List.drop_left' hsB]
  · rw [drop37]
    dsimp only [select_endian]
    exact List.take_left' hsL
  · rw [drop37]
    dsimp only [select_endian]
    exact List.take_left' hsB

/-- C8 witness: byte-order independence of header, table and name tail at
the single-triangle mesh, with two distinguishable float encoders. -/
theorem c8_header_endian_independent_witness :
    (export_bytes enc0 (fun _ => [1, 1, 1, 1]) { propsYZ with endian := .little } mesh1).take 37 =
        (export_bytes enc0 (fun _ => [1, 1, 1, 1]) { propsYZ with endian := .big } mesh1).take 37
      ∧ (export_bytes enc0 (fun _ => [1, 1, 1, 1]) { propsYZ with endian := .little } mesh1).drop
            (37 + 36 * vertex_count mesh1) =
          (export_bytes enc0 (fun _ => [1, 1, 1, 1]) { propsYZ with endian := .big } mesh1).drop
            (37 + 36 * vertex_count mesh1)
      ∧ ((export_bytes enc0 (fun _ => [1, 1, 1, 1]) { propsYZ with endian := .little } mesh1).drop 37).take
            (36 * vertex_count mesh1) =
          (vertex_records { propsYZ with endian := .little } mesh1).flatMap
            (encode_vertex enc0)
      ∧ ((export_bytes enc0 (fun _ => [1, 1, 1, 1]) { propsYZ with endian := .big } mesh1).drop 37).take
            (36 * vertex_count mesh1) =
          (vertex_records { propsYZ with endian := .big } mesh1).flatMap
            (encode_vertex (fun _ => [1, 1, 1, 1])) :=
  c8_header_endian_independent enc0 (fun _ => [1, 1, 1, 1]) propsYZ mesh1
    (fun _ => rfl) (fun _ => rfl)

/-- C9: with both flip flags enabled, reading a UV through get_uv and
feeding the result back through get_uv restores the original pair: the
flip (u, v) to (1 - u, 1 - v) composed with itself is the identity. -/
theorem c9_flip_involutive (self : ExportProps) (hu : self.flip_uv_u = true)
    (hv : self.flip_uv_v = true) (u v : ℚ) :
    get_uv self (some [get_uv self (some [(u, v)]) 0]) 0 = (u, v) := by
  simp [get_uv, hu, hv]

/-- C9 witness: the double flip at the pair (1/4, 1/3). -/
theorem c9_flip_involutive_witness :
    get_uv props_flips (some [get_uv props_flips (some [((1 : ℚ)/4, (1 : ℚ)/3)]) 0]) 0 =
      ((1 : ℚ)/4, (1 : ℚ)/3) :=
  c9_flip_involutive props_flips rfl rfl (1/4) (1/3)

/-- C10: the encoded header is exactly 28 bytes, the magic bytes MSH0
followed by six little-endian uint32 fields, the headerSize field written
into it always decodes to 28 and the attributeRecordSize field always
decodes to 3. -/
theorem c10_header_fixed_layout (encLE encBE : ℚ → List Nat) (self : ExportProps)
    (mesh : Mesh) :
    (header_pack (vertex_count mesh) build_attribute_layout.2
        build_attribute_layout.1.length ATTRIBUTE_STRUCT_SIZE
        self.texture_name.length HEADER_SIZE).length = 28
      ∧ (export_bytes encLE encBE self mesh).take 28 =
          HEADER_MAGIC ++ le32 (vertex_count mesh) ++ le32 36 ++ le32 3 ++ le32 3 ++
            le32 self.texture_name.length ++ le32 28
      ∧ read_u32 (export_bytes encLE encBE self mesh) 24 = 28
      ∧ read_u32 (export_bytes encLE encBE self mesh) 16 = 3 :=
  ⟨rfl, rfl, read_hs encLE encBE self mesh, read_ars encLE encBE self mesh⟩

end LoveMesh
